import Mathlib

/-!
Shallow embedding of `verification/verify_frontend.py`, the UI-verification
harness of the virusgame repository, together with proofs about its claims.

The script drives a browser over an abstract rendered page.  We model the
page as an environment record (`Dom`) giving the observations the script can
make, and `run` as the straight-line translation of the `run()` function:
each Playwright call becomes a read of the environment, each `print` appends
to an output trace, and each exception becomes an `Except.error` that aborts
the remaining steps, exactly as an uncaught Python exception would.
-/

namespace VirusVerify

/-- Boolean contiguous-sublist test, used to model Python's substring
operator `needle in hay` on strings. -/
def listInfixOf {α : Type} [BEq α] (n : List α) : List α → Bool
  | [] => n.isEmpty
  | b :: bs => n.isPrefixOf (b :: bs) || listInfixOf n bs

/-- Python `needle in hay` on strings: substring containment over the raw
character sequences. -/
def pyStrIn (needle hay : String) : Bool :=
  listInfixOf needle.toList hay.toList

/-- Value of a decimal digit character; `none` on a non-digit. -/
def digitVal (c : Char) : Option Nat :=
  if c.isDigit then some (c.toNat - 48) else none

/-- Accumulating decimal evaluation of a digit list; fails on a non-digit. -/
def digitsValAux : List Char → Nat → Option Nat
  | [], acc => some acc
  | c :: cs, acc =>
    match digitVal c with
    | none => none
    | some d => digitsValAux cs (acc * 10 + d)

/-- Decimal value of a non-empty all-digit character list. -/
def digitsToNat : List Char → Option Nat
  | [] => none
  | l => digitsValAux l 0

/-- Drop leading whitespace characters. -/
def dropWs : List Char → List Char
  | [] => []
  | c :: cs => if c.isWhitespace then dropWs cs else c :: cs

/-- Python `str.strip()`: remove leading and trailing whitespace. -/
def stripWs (l : List Char) : List Char :=
  (dropWs (dropWs l.reverse).reverse)

/-- Python `int(s)` on a string: strip whitespace, optional sign, decimal
digits; `none` models the `ValueError` raised on anything else.  (Python
also accepts underscore digit separators; not modelled.) -/
def parsePyInt (s : String) : Option Int :=
  match stripWs s.toList with
  | '-' :: rest => (digitsToNat rest).map (fun n => -(n : Int))
  | '+' :: rest => (digitsToNat rest).map (fun n => (n : Int))
  | l => (digitsToNat l).map (fun n => (n : Int))

/-- The rendered page as the harness observes it.

* `cellRendered` — whether some element matches the `.cell` selector before
  the `wait_for_selector` timeout elapses;
* `cellAt r c` — the element matching `.cell[data-row="r"][data-col="c"]`:
  `none` when no such element exists, `some a` when it exists with class
  attribute `a` (`a = none` models an element carrying no class attribute,
  for which `get_attribute` returns Python `None`);
* `rowsValue` / `colsValue` — the current string values of the `#rows-input`
  and `#cols-input` controls;
* `screenshotWritable` — whether writing the screenshot file succeeds. -/
structure Dom where
  cellRendered : Bool
  cellAt : Int → Int → Option (Option String)
  rowsValue : String
  colsValue : String
  screenshotWritable : Bool

/-- The uncaught Python exceptions that can abort `run()`. -/
inductive RunError where
  /-- `wait_for_selector(".cell")` timed out: the board never rendered. -/
  | renderTimeout
  /-- `page.screenshot(...)` failed, e.g. the output path is not writable. -/
  | screenshotError
  /-- `get_attribute` on the locator for cell `(row, col)` found no element
  (Playwright raises a timeout waiting for the element). -/
  | cellNotFound (row col : Int)
  /-- `"..." in None`: membership test on a `None` class attribute raises
  `TypeError`. -/
  | noneTypeError
  /-- `int(...)` on an input value raised `ValueError`. -/
  | malformedConfig
deriving Repr, DecidableEq

/-- Observable outcome of one run of the script.

* `output` — the lines printed, in order;
* `screenshotTaken` — whether the screenshot file was written;
* `queried` — the `(row, col)` coordinates whose cell element the script
  looked up, in order;
* `configRead` — whether the rows/cols input values were read;
* `browserClosed` — whether the browser (and its page) was closed;
* `result` — normal completion or the uncaught exception. -/
structure Outcome where
  output : List String
  screenshotTaken : Bool
  queried : List (Int × Int)
  configRead : Bool
  browserClosed : Bool
  result : Except RunError Unit

/-- Rendering of a `get_attribute` result inside a Python f-string:
`None` prints as `"None"`. -/
def formatClass : Option String → String
  | none => "None"
  | some s => s

/-- The line `print(f"Cell (0,0) class: {class_0_0}")`. -/
def line1Of (c : String) : String := s!"Cell (0,0) class: {c}"

/-- Success report for the first check. -/
def okLine1 : String := "SUCCESS: Cell (0,0) correctly identified as player 1 base"

/-- Failure report for the first check. -/
def failLine1 : String := "FAILURE: Cell (0,0) should be player 1 base"

/-- The line `print(f"Cell ({last_row},{last_col}) class: {class_last}")`. -/
def lineLastOf (r c : Int) (cl : String) : String :=
  s!"Cell ({r},{c}) class: {cl}"

/-- Success report for the second check. -/
def okLine2 : String := "SUCCESS: Last cell correctly identified as player 2 base"

/-- Failure report for the second check. -/
def failLine2 : String := "FAILURE: Last cell should be player 2 base"

/-- The body of `run()` inside the `with sync_playwright()` block, line by
line: wait for `.cell`, screenshot, first cell check, read configuration,
second cell check, `browser.close()`.  Each failing step aborts the rest,
as an uncaught exception would. -/
def runBody (dom : Dom) : Outcome :=
  if dom.cellRendered = false then
    { output := [], screenshotTaken := false, queried := [], configRead := false,
      browserClosed := false, result := Except.error RunError.renderTimeout }
  else if dom.screenshotWritable = false then
    { output := [], screenshotTaken := false, queried := [], configRead := false,
      browserClosed := false, result := Except.error RunError.screenshotError }
  else
    match dom.cellAt 0 0 with
    | none =>
      { output := [], screenshotTaken := true, queried := [(0, 0)], configRead := false,
        browserClosed := false, result := Except.error (RunError.cellNotFound 0 0) }
    | some attr0 =>
      let l1 := line1Of (formatClass attr0)
      match attr0 with
      | none =>
        { output := [l1], screenshotTaken := true, queried := [(0, 0)], configRead := false,
          browserClosed := false, result := Except.error RunError.noneTypeError }
      | some cls0 =>
        let s1 := if pyStrIn "player1-base" cls0 then okLine1 else failLine1
        match parsePyInt dom.rowsValue with
        | none =>
          { output := [l1, s1], screenshotTaken := true, queried := [(0, 0)],
            configRead := true, browserClosed := false,
            result := Except.error RunError.malformedConfig }
        | some rows =>
          match parsePyInt dom.colsValue with
          | none =>
            { output := [l1, s1], screenshotTaken := true, queried := [(0, 0)],
              configRead := true, browserClosed := false,
              result := Except.error RunError.malformedConfig }
          | some cols =>
            let lastRow := rows - 1
            let lastCol := cols - 1
            match dom.cellAt lastRow lastCol with
            | none =>
              { output := [l1, s1], screenshotTaken := true,
                queried := [(0, 0), (lastRow, lastCol)], configRead := true,
                browserClosed := false,
                result := Except.error (RunError.cellNotFound lastRow lastCol) }
            | some attrL =>
              let l2 := lineLastOf lastRow lastCol (formatClass attrL)
              match attrL with
              | none =>
                { output := [l1, s1, l2], screenshotTaken := true,
                  queried := [(0, 0), (lastRow, lastCol)], configRead := true,
                  browserClosed := false, result := Except.error RunError.noneTypeError }
              | some clsL =>
                let s2 := if pyStrIn "player2-base" clsL then okLine2 else failLine2
                { output := [l1, s1, l2, s2], screenshotTaken := true,
                  queried := [(0, 0), (lastRow, lastCol)], configRead := true,
                  browserClosed := true, result := Except.ok () }

/-- Exit of the `with sync_playwright() as p:` block: stopping Playwright
terminates the driver and closes every browser (with its pages) it
launched, on every exit path of the block, normal or exceptional. -/
def pwTeardown (o : Outcome) : Outcome :=
  { o with browserClosed := true }

/-- The whole `run()` function: its body wrapped in the Playwright
context manager. -/
def run (dom : Dom) : Outcome :=
  pwTeardown (runBody dom)

/-- `if __name__ == "__main__": run()` — the process exits with status 0
when `run()` returns and with a non-zero status on an uncaught exception. -/
def mainExitStatus (dom : Dom) : Nat :=
  match (run dom).result with
  | Except.ok _ => 0
  | Except.error _ => 1

/-- Split a character list at whitespace into maximal non-empty runs;
`acc` holds the current run, reversed. -/
def splitWsAux : List Char → List Char → List String
  | [], acc => if acc.isEmpty then [] else [String.mk acc.reverse]
  | c :: cs, acc =>
    if c.isWhitespace then
      if acc.isEmpty then splitWsAux cs []
      else String.mk acc.reverse :: splitWsAux cs []
    else splitWsAux cs (c :: acc)

/-- Spec-side notion (§3 Cell Classification): the whitespace-separated
class tokens of a raw class attribute value. -/
def classTokens (s : String) : List String :=
  splitWsAux s.toList []

/-- A report line announcing success. -/
def isSuccessLine (l : String) : Bool :=
  "SUCCESS:".toList.isPrefixOf l.toList

/-- A report line announcing failure. -/
def isFailureLine (l : String) : Bool :=
  "FAILURE:".toList.isPrefixOf l.toList

/-! ### Concrete page environments used as test inputs -/

/-- The nominal 10×10 page: both base cells carry the expected tokens. -/
def domOk : Dom :=
  { cellRendered := true, screenshotWritable := true,
    rowsValue := "10", colsValue := "10",
    cellAt := fun r c =>
      if r = 0 ∧ c = 0 then some (some "cell player1-base")
      else if r = 9 ∧ c = 9 then some (some "cell player2-base")
      else some (some "cell") }

/-- A 10×10 page whose (0,0) cell carries a class that contains
`player1-base` as a substring but not as a token. -/
def domSubstr : Dom :=
  { cellRendered := true, screenshotWritable := true,
    rowsValue := "10", colsValue := "10",
    cellAt := fun r c =>
      if r = 0 ∧ c = 0 then some (some "cell player1-based")
      else if r = 9 ∧ c = 9 then some (some "cell player2-base")
      else some (some "cell") }

/-- The nominal page with an unwritable screenshot path. -/
def domNoShot : Dom :=
  { domOk with screenshotWritable := false }

/-- The nominal page that never renders any `.cell` element. -/
def domBlank : Dom :=
  { domOk with cellRendered := false }

/-- A 10×10 page whose (0,0) cell carries only the class `cell`, so the
first check fails. -/
def domFail1 : Dom :=
  { domOk with
    cellAt := fun r c =>
      if r = 0 ∧ c = 0 then some (some "cell")
      else if r = 9 ∧ c = 9 then some (some "cell player2-base")
      else some (some "cell") }

/-- A 5×7 page with the player-two base on its last cell (4,6). -/
def dom57 : Dom :=
  { cellRendered := true, screenshotWritable := true,
    rowsValue := "5", colsValue := "7",
    cellAt := fun r c =>
      if r = 0 ∧ c = 0 then some (some "cell player1-base")
      else if r = 4 ∧ c = 6 then some (some "cell player2-base")
      else some (some "cell") }

/-- A page that renders cells, but none matching `data-row="0"` and
`data-col="0"`: the first checked cell is missing. -/
def domNoCell : Dom :=
  { domOk with
    cellAt := fun r c =>
      if r = 0 ∧ c = 0 then none
      else if r = 9 ∧ c = 9 then some (some "cell player2-base")
      else some (some "cell") }

/-- A page that renders cells, with a correct (0,0) base cell, but none
matching `data-row="9"` and `data-col="9"`: the last checked cell is
missing. -/
def domNoLast : Dom :=
  { domOk with
    cellAt := fun r c =>
      if r = 0 ∧ c = 0 then some (some "cell player1-base")
      else if r = 9 ∧ c = 9 then none
      else some (some "cell") }

/-- A 10×10 page with a correct (0,0) base cell whose (9,9) cell carries
only the class `cell`, so the second check fails. -/
def domFail2 : Dom :=
  { domOk with
    cellAt := fun r c =>
      if r = 0 ∧ c = 0 then some (some "cell player1-base")
      else some (some "cell") }

/-- A 10×10 page whose (0,0) cell element exists but carries no class
attribute at all. -/
def domNoClass : Dom :=
  { domOk with
    cellAt := fun r c =>
      if r = 0 ∧ c = 0 then some none
      else if r = 9 ∧ c = 9 then some (some "cell player2-base")
      else some (some "cell") }

/-! ### Helper lemmas -/

/-- `listInfixOf` decides the contiguous-sublist relation. -/
theorem listInfixOf_iff {α : Type} [BEq α] [LawfulBEq α] (n h : List α) :
    listInfixOf n h = true ↔ n <:+: h := by
  induction h with
  | nil => simp [listInfixOf, List.isEmpty_iff]
  | cons b bs ih =>
    simp [listInfixOf, List.infix_cons_iff, ih, List.isPrefixOf_iff_prefix]

/-- Python string membership is substring containment. -/
theorem pyStrIn_iff (n h : String) :
    pyStrIn n h = true ↔ n.toList <:+: h.toList :=
  listInfixOf_iff _ _

/-- Characterization of a run in which every step succeeds: the board
renders, the screenshot writes, both target cells exist and carry a class
attribute, and both input values parse. -/
theorem run_full (dom : Dom) (cls0 clsL : String) (rows cols : Int)
    (hr : dom.cellRendered = true) (hw : dom.screenshotWritable = true)
    (h0 : dom.cellAt 0 0 = some (some cls0))
    (hrows : parsePyInt dom.rowsValue = some rows)
    (hcols : parsePyInt dom.colsValue = some cols)
    (hL : dom.cellAt (rows - 1) (cols - 1) = some (some clsL)) :
    run dom =
      { output := [line1Of cls0,
                   if pyStrIn "player1-base" cls0 then okLine1 else failLine1,
                   lineLastOf (rows - 1) (cols - 1) clsL,
                   if pyStrIn "player2-base" clsL then okLine2 else failLine2],
        screenshotTaken := true,
        queried := [(0, 0), (rows - 1, cols - 1)],
        configRead := true, browserClosed := true,
        result := Except.ok () } := by
  simp [run, runBody, pwTeardown, hr, hw, h0, hrows, hcols, hL, formatClass]

/-- An if-then-else over the two report lines equals the success line
exactly when the condition holds. -/
theorem ite_line_eq_iff (b : Bool) (ok fail : String) (hne : fail ≠ ok) :
    ((if b then ok else fail) = ok ↔ b = true) := by
  cases b <;> simp [hne]

/-- A cell-class line never coincides with the second check's FAILURE
report: the former starts with the character C, the latter with F. -/
theorem line1Of_ne_failLine2 (c : String) : line1Of c ≠ failLine2 := by
  intro h
  have h2 : isFailureLine (line1Of c) = false := rfl
  rw [h] at h2
  exact absurd h2 (by decide)

/-! ### Claims -/

/-- C1 (counterexample): on a page whose (0,0) cell has class
`"cell player1-based"`, the first check reports SUCCESS even though
`"player1-base"` is not among the cell's whitespace-separated class
tokens — the code tests substring containment, not token membership. -/
theorem c1_counterexample :
    (run domSubstr).output[1]? = some okLine1 ∧
      "player1-base" ∉ classTokens "cell player1-based" := by
  exact ⟨rfl, by decide⟩

/-- C1 (amended): in an error-free run, each cell check passes — i.e. its
SUCCESS line is emitted — exactly when the expected token occurs as a
contiguous substring of the raw class attribute value, Python's `in` on
strings, rather than as a whitespace-separated class token. -/
theorem c1_check_is_substring_containment (dom : Dom) (cls0 clsL : String)
    (rows cols : Int)
    (hr : dom.cellRendered = true) (hw : dom.screenshotWritable = true)
    (h0 : dom.cellAt 0 0 = some (some cls0))
    (hrows : parsePyInt dom.rowsValue = some rows)
    (hcols : parsePyInt dom.colsValue = some cols)
    (hL : dom.cellAt (rows - 1) (cols - 1) = some (some clsL)) :
    ((run dom).output[1]? = some okLine1 ↔
        "player1-base".toList <:+: cls0.toList) ∧
    ((run dom).output[3]? = some okLine2 ↔
        "player2-base".toList <:+: clsL.toList) := by
  rw [run_full dom cls0 clsL rows cols hr hw h0 hrows hcols hL]
  constructor
  · show some (if pyStrIn "player1-base" cls0 then okLine1 else failLine1) = some okLine1 ↔ _
    rw [Option.some_inj, ite_line_eq_iff _ _ _ (by decide), pyStrIn_iff]
  · show some (if pyStrIn "player2-base" clsL then okLine2 else failLine2) = some okLine2 ↔ _
    rw [Option.some_inj, ite_line_eq_iff _ _ _ (by decide), pyStrIn_iff]

/-- C1 (witness): the amended claim instantiated on the nominal 10×10
page, where both checks pass and both tokens do occur as substrings. -/
theorem c1_witness :
    ((run domOk).output[1]? = some okLine1 ↔
        "player1-base".toList <:+: "cell player1-base".toList) ∧
    ((run domOk).output[3]? = some okLine2 ↔
        "player2-base".toList <:+: "cell player2-base".toList) :=
  c1_check_is_substring_containment domOk "cell player1-base"
    "cell player2-base" 10 10 rfl rfl rfl rfl rfl rfl

/-- C2 (counterexample): on the nominal page with an unwritable screenshot
path, the run aborts with the screenshot error and emits no check line at
all — the cell checks do not execute. -/
theorem c2_counterexample :
    (run domNoShot).result = Except.error RunError.screenshotError ∧
      (run domNoShot).output = [] ∧ (run domNoShot).queried = [] :=
  ⟨rfl, rfl, rfl⟩

/-- C2 (amended): whenever the board renders but the screenshot write
fails, the uncaught exception aborts the run before either cell check: no
cell is looked up, no configuration is read, and no report line is
emitted. -/
theorem c2_screenshot_failure_aborts (dom : Dom)
    (hr : dom.cellRendered = true) (hw : dom.screenshotWritable = false) :
    (run dom).result = Except.error RunError.screenshotError ∧
      (run dom).output = [] ∧ (run dom).queried = [] ∧
      (run dom).configRead = false := by
  simp [run, runBody, pwTeardown, hr, hw]

/-- C2 (witness): the amended claim instantiated on the nominal page with
an unwritable screenshot path. -/
theorem c2_witness :
    (run domNoShot).result = Except.error RunError.screenshotError ∧
      (run domNoShot).output = [] ∧ (run domNoShot).queried = [] ∧
      (run domNoShot).configRead = false :=
  c2_screenshot_failure_aborts domNoShot rfl rfl

/-- C3: for any configuration values rows = R ≥ 1, cols = C ≥ 1 parsed
from the live-read inputs, the second check looks up exactly cell
(R-1, C-1) and reports that cell's coordinates in its output line. -/
theorem c3_second_check_uses_live_config (dom : Dom) (cls0 clsL : String)
    (rows cols : Int) (hge1 : 1 ≤ rows) (hge2 : 1 ≤ cols)
    (hr : dom.cellRendered = true) (hw : dom.screenshotWritable = true)
    (h0 : dom.cellAt 0 0 = some (some cls0))
    (hrows : parsePyInt dom.rowsValue = some rows)
    (hcols : parsePyInt dom.colsValue = some cols)
    (hL : dom.cellAt (rows - 1) (cols - 1) = some (some clsL)) :
    (run dom).queried = [(0, 0), (rows - 1, cols - 1)] ∧
      (run dom).output[2]? =
        some (lineLastOf (rows - 1) (cols - 1) clsL) := by
  rw [run_full dom cls0 clsL rows cols hr hw h0 hrows hcols hL]
  exact ⟨rfl, rfl⟩

/-- C3 (witness): with a 5×7 configuration the second checked cell is
(4,6). -/
theorem c3_witness :
    (1 : Int) ≤ 5 ∧ (1 : Int) ≤ 7 ∧
      ((run dom57).queried = [(0, 0), (4, 6)] ∧
        (run dom57).output[2]? = some (lineLastOf 4 6 "cell player2-base")) :=
  ⟨by decide, by decide,
    c3_second_check_uses_live_config dom57 "cell player1-base"
      "cell player2-base" 5 7 (by decide) (by decide) rfl rfl rfl rfl rfl rfl⟩

/-- C4: whatever class string the (0,0) cell carries, a mismatch does not
raise: the first check's report line (SUCCESS or FAILURE as the membership
test decides) is emitted, the configuration is still read, the second
check's report line is emitted, and the run completes normally. -/
theorem c4_first_check_does_not_raise (dom : Dom) (cls0 clsL : String)
    (rows cols : Int)
    (hr : dom.cellRendered = true) (hw : dom.screenshotWritable = true)
    (h0 : dom.cellAt 0 0 = some (some cls0))
    (hrows : parsePyInt dom.rowsValue = some rows)
    (hcols : parsePyInt dom.colsValue = some cols)
    (hL : dom.cellAt (rows - 1) (cols - 1) = some (some clsL)) :
    (run dom).output[1]? =
        some (if pyStrIn "player1-base" cls0 then okLine1 else failLine1) ∧
      (run dom).configRead = true ∧
      (run dom).output[3]? =
        some (if pyStrIn "player2-base" clsL then okLine2 else failLine2) ∧
      (run dom).result = Except.ok () := by
  rw [run_full dom cls0 clsL rows cols hr hw h0 hrows hcols hL]
  exact ⟨rfl, rfl, rfl, rfl⟩

/-- C4 (witness): on a page whose (0,0) cell carries only `"cell"`, the
FAILURE line is emitted and the run still reads the configuration,
performs the second check and completes normally. -/
theorem c4_witness :
    (run domFail1).output[1]? =
        some (if pyStrIn "player1-base" "cell" then okLine1 else failLine1) ∧
      (run domFail1).configRead = true ∧
      (run domFail1).output[3]? =
        some (if pyStrIn "player2-base" "cell player2-base" then okLine2
              else failLine2) ∧
      (run domFail1).result = Except.ok () :=
  c4_first_check_does_not_raise domFail1 "cell" "cell player2-base" 10 10
    rfl rfl rfl rfl rfl rfl

/-- C5: when no `.cell` element appears before the timeout, the run fails
with the render-timeout error and nothing later happens: no screenshot, no
cell lookup, no configuration read, no output. -/
theorem c5_render_timeout_aborts_everything (dom : Dom)
    (h : dom.cellRendered = false) :
    (run dom).result = Except.error RunError.renderTimeout ∧
      (run dom).screenshotTaken = false ∧ (run dom).configRead = false ∧
      (run dom).queried = [] ∧ (run dom).output = [] := by
  simp [run, runBody, pwTeardown, h]

/-- C5 (witness): the claim instantiated on a page that never renders a
cell. -/
theorem c5_witness :
    (run domBlank).result = Except.error RunError.renderTimeout ∧
      (run domBlank).screenshotTaken = false ∧
      (run domBlank).configRead = false ∧
      (run domBlank).queried = [] ∧ (run domBlank).output = [] :=
  c5_render_timeout_aborts_everything domBlank rfl

/-- C6: on every run — normal completion or any aborting error — the
browser (and with it the page) is closed before the run terminates,
because the whole body executes inside the Playwright context manager. -/
theorem c6_browser_always_closed (dom : Dom) :
    (run dom).browserClosed = true := rfl

/-- If a run fails with `cellNotFound 0 0`, the (0,0) cell really was
missing: no other step can produce that exact error, since the second
lookup only reports `cellNotFound` at (0,0) when the (0,0) lookup itself
found no element. -/
theorem cellNotFound_zero_inv (dom : Dom)
    (h : (run dom).result = Except.error (RunError.cellNotFound 0 0)) :
    dom.cellAt 0 0 = none := by
  have hb : (runBody dom).result = Except.error (RunError.cellNotFound 0 0) := h
  unfold runBody at hb
  split at hb
  · simp at hb
  · split at hb
    · simp at hb
    · split at hb
      · exact (by assumption)
      · rename_i attr0 heq0
        dsimp only at hb
        split at hb
        · simp at hb
        · split at hb
          · simp at hb
          · split at hb
            · simp at hb
            · split at hb
              · rename_i rows hrows cols hcols heq2
                simp only [Except.error.injEq, RunError.cellNotFound.injEq] at hb
                rw [hb.1, hb.2] at heq2
                rw [heq2] at heq0
                cases heq0
              · split at hb
                · simp at hb
                · simp at hb

/-- C7: for both cell checks, a missing cell and a wrongly-classified
cell are signalled differently.  First check: if no element matches the
(0,0) selectors, the run aborts with the (0,0) cell-not-found error and
emits no report line at all; if the element exists but its class lacks
the expected token, the FAILURE mismatch line is emitted and the run
never raises the (0,0) cell-not-found error.  Second check: if no element
matches the (rows-1, cols-1) selectors, the run aborts with that cell's
cell-not-found error and the second check's FAILURE line is never among
the output; if the element exists but its class lacks the expected token,
the second FAILURE line is emitted and that cell-not-found error is never
raised. -/
theorem c7_missing_cell_vs_mismatch (dom : Dom)
    (hr : dom.cellRendered = true) (hw : dom.screenshotWritable = true) :
    ((dom.cellAt 0 0 = none →
        (run dom).result = Except.error (RunError.cellNotFound 0 0) ∧
          (run dom).output = []) ∧
      (∀ cls0, dom.cellAt 0 0 = some (some cls0) →
        pyStrIn "player1-base" cls0 = false →
          (run dom).output[1]? = some failLine1 ∧
            (run dom).result ≠ Except.error (RunError.cellNotFound 0 0))) ∧
    ((∀ cls0 rows cols, dom.cellAt 0 0 = some (some cls0) →
        parsePyInt dom.rowsValue = some rows →
        parsePyInt dom.colsValue = some cols →
        dom.cellAt (rows - 1) (cols - 1) = none →
          (run dom).result =
              Except.error (RunError.cellNotFound (rows - 1) (cols - 1)) ∧
            failLine2 ∉ (run dom).output) ∧
      (∀ cls0 clsL rows cols, dom.cellAt 0 0 = some (some cls0) →
        parsePyInt dom.rowsValue = some rows →
        parsePyInt dom.colsValue = some cols →
        dom.cellAt (rows - 1) (cols - 1) = some (some clsL) →
        pyStrIn "player2-base" clsL = false →
          (run dom).output[3]? = some failLine2 ∧
            (run dom).result ≠
              Except.error (RunError.cellNotFound (rows - 1) (cols - 1)))) := by
  refine ⟨⟨?_, ?_⟩, ?_, ?_⟩
  · intro h0
    simp [run, runBody, pwTeardown, hr, hw, h0]
  · intro cls0 h0 hmiss
    constructor
    · show (runBody dom).output[1]? = some failLine1
      simp [runBody, hr, hw, h0, hmiss]
      split
      · rfl
      · split
        · rfl
        · split
          · rfl
          · split
            · rfl
            · rfl
    · intro hcon
      have hnone := cellNotFound_zero_inv dom hcon
      rw [h0] at hnone
      cases hnone
  · intro cls0 rows cols h0 hrows hcols hL2
    constructor
    · show (runBody dom).result = _
      simp [runBody, hr, hw, h0, hrows, hcols, hL2]
    · have hout : (run dom).output =
          [line1Of cls0,
            if pyStrIn "player1-base" cls0 then okLine1 else failLine1] := by
        show (runBody dom).output = _
        simp [runBody, hr, hw, h0, hrows, hcols, hL2, formatClass]
      rw [hout]
      intro hmem
      simp only [List.mem_cons, List.not_mem_nil, or_false] at hmem
      rcases hmem with h | h
      · exact line1Of_ne_failLine2 cls0 h.symm
      · revert h
        cases pyStrIn "player1-base" cls0 <;> decide
  · intro cls0 clsL rows cols h0 hrows hcols hL hmiss2
    rw [run_full dom cls0 clsL rows cols hr hw h0 hrows hcols hL]
    constructor
    · rw [hmiss2]
      rfl
    · simp

/-- C7 (witness): a missing (0,0) cell errors with cell-not-found and
prints nothing; a (0,0) cell carrying only `"cell"` prints the first
FAILURE line and raises no such error; a missing (9,9) cell errors with
its cell-not-found and the second FAILURE line is never printed; a (9,9)
cell carrying only `"cell"` prints the second FAILURE line and raises no
such error. -/
theorem c7_witness :
    ((run domNoCell).result = Except.error (RunError.cellNotFound 0 0) ∧
      (run domNoCell).output = []) ∧
    ((run domFail1).output[1]? = some failLine1 ∧
      (run domFail1).result ≠ Except.error (RunError.cellNotFound 0 0)) ∧
    ((run domNoLast).result = Except.error (RunError.cellNotFound 9 9) ∧
      failLine2 ∉ (run domNoLast).output) ∧
    ((run domFail2).output[3]? = some failLine2 ∧
      (run domFail2).result ≠ Except.error (RunError.cellNotFound 9 9)) :=
  ⟨(c7_missing_cell_vs_mismatch domNoCell rfl rfl).1.1 rfl,
    (c7_missing_cell_vs_mismatch domFail1 rfl rfl).1.2 "cell" rfl rfl,
    (c7_missing_cell_vs_mismatch domNoLast rfl rfl).2.1
      "cell player1-base" 10 10 rfl rfl rfl rfl,
    (c7_missing_cell_vs_mismatch domFail2 rfl rfl).2.2
      "cell player1-base" "cell" 10 10 rfl rfl rfl rfl rfl⟩

/-- C8: whenever the setup steps succeed (board renders, screenshot
writes, both cells found with class attributes, inputs parse), the process
exits with status 0 — for every possible pair of class strings, so the
exit status is independent of whether the checks passed or failed. -/
theorem c8_exit_status_ignores_check_outcomes (dom : Dom)
    (cls0 clsL : String) (rows cols : Int)
    (hr : dom.cellRendered = true) (hw : dom.screenshotWritable = true)
    (h0 : dom.cellAt 0 0 = some (some cls0))
    (hrows : parsePyInt dom.rowsValue = some rows)
    (hcols : parsePyInt dom.colsValue = some cols)
    (hL : dom.cellAt (rows - 1) (cols - 1) = some (some clsL)) :
    mainExitStatus dom = 0 := by
  unfold mainExitStatus
  rw [run_full dom cls0 clsL rows cols hr hw h0 hrows hcols hL]

/-- C8 (witness): a run whose first check FAILS still exits with
status 0. -/
theorem c8_witness : mainExitStatus domFail1 = 0 :=
  c8_exit_status_ignores_check_outcomes domFail1 "cell" "cell player2-base"
    10 10 rfl rfl rfl rfl rfl rfl

/-- C9 (counterexample): on the nominal 10×10 page the status line of the
(9,9) check is `"SUCCESS: Last cell correctly identified as player 2
base"`, which contains neither the expected token `player2-base` nor the
checked cell's coordinates — so the SUCCESS/FAILURE line does not name the
checked cell and the expected token as the claim states. -/
theorem c9_counterexample :
    (run domOk).output[3]? = some okLine2 ∧
      pyStrIn "player2-base" okLine2 = false ∧
      pyStrIn "(9,9)" okLine2 = false ∧
      pyStrIn "9" okLine2 = false :=
  ⟨rfl, rfl, rfl, rfl⟩

/-- C9 (amended): per verification attempt the harness emits one
`Cell ({row},{col}) class: {classList}` line followed by one line
beginning `SUCCESS:` or `FAILURE:`; the status lines describe the cell and
expectation in fixed prose rather than by coordinates or literal token. -/
theorem c9_output_format (dom : Dom) (cls0 clsL : String) (rows cols : Int)
    (hr : dom.cellRendered = true) (hw : dom.screenshotWritable = true)
    (h0 : dom.cellAt 0 0 = some (some cls0))
    (hrows : parsePyInt dom.rowsValue = some rows)
    (hcols : parsePyInt dom.colsValue = some cols)
    (hL : dom.cellAt (rows - 1) (cols - 1) = some (some clsL)) :
    (run dom).output.length = 4 ∧
    (run dom).output[0]? = some (line1Of cls0) ∧
    (run dom).output[2]? = some (lineLastOf (rows - 1) (cols - 1) clsL) ∧
    (∃ s, (run dom).output[1]? = some s ∧
      (isSuccessLine s = true ∨ isFailureLine s = true)) ∧
    (∃ s, (run dom).output[3]? = some s ∧
      (isSuccessLine s = true ∨ isFailureLine s = true)) := by
  rw [run_full dom cls0 clsL rows cols hr hw h0 hrows hcols hL]
  refine ⟨rfl, rfl, rfl,
    ⟨if pyStrIn "player1-base" cls0 then okLine1 else failLine1, rfl, ?_⟩,
    ⟨if pyStrIn "player2-base" clsL then okLine2 else failLine2, rfl, ?_⟩⟩
  · cases pyStrIn "player1-base" cls0 <;> decide
  · cases pyStrIn "player2-base" clsL <;> decide

/-- C9 (witness): the amended format claim on the nominal 10×10 page. -/
theorem c9_witness :
    (run domOk).output.length = 4 ∧
    (run domOk).output[0]? = some (line1Of "cell player1-base") ∧
    (run domOk).output[2]? = some (lineLastOf 9 9 "cell player2-base") ∧
    (∃ s, (run domOk).output[1]? = some s ∧
      (isSuccessLine s = true ∨ isFailureLine s = true)) ∧
    (∃ s, (run domOk).output[3]? = some s ∧
      (isSuccessLine s = true ∨ isFailureLine s = true)) :=
  c9_output_format domOk "cell player1-base" "cell player2-base" 10 10
    rfl rfl rfl rfl rfl rfl

/-- C10: on a page whose (0,0) cell element exists but carries no class
attribute, the class read yields Python `None`, the membership test raises
`TypeError` and the run aborts: only the `Cell (0,0) class: None` line is
printed, no FAILURE report is emitted, and the configuration is never
read. -/
theorem c10_missing_class_attribute_aborts :
    (run domNoClass).result = Except.error RunError.noneTypeError ∧
      (run domNoClass).output = [line1Of "None"] ∧
      (∀ l ∈ (run domNoClass).output, isFailureLine l = false) ∧
      (run domNoClass).configRead = false := by
  refine ⟨rfl, rfl, ?_, rfl⟩
  decide

end VirusVerify
